import Mathlib

/-!
Shallow embedding of `src/Libraries/Renderer/src/renderers/native/findNodeHandle.js`
(React Native's `findNodeHandle` module) and proofs of the specification claims.

The module is a single dispatch function over JavaScript values, with two
module-level injected strategy slots (`injectedFindNode`,
`injectedFindRootNodeID`), a lookup into `ReactInstanceMap`, a development-mode
warning keyed on the current owner's `_warnedAboutRefsInRender` flag, and two
`invariant` failure messages.
-/

namespace FindNodeHandle

/--
JavaScript values, restricted to the observations the module makes of them:
`== null`, `typeof`, truthiness, the presence of the `_rootNodeID` and
`_nativeTag` properties, and the `render` property.

`vobj hasRootNodeID hasNativeTag render` is an object: the two booleans record
whether `'_rootNodeID' in component` and `'_nativeTag' in component` hold, and
`render` is the value of its `render` property (`vundefined` when absent).
`vfun render` is a function value carrying its own `render` property.
-/
inductive JSVal where
  | vnull : JSVal
  | vundefined : JSVal
  | vbool : Bool → JSVal
  | vnum : Int → JSVal
  | vstr : String → JSVal
  | vobj : Bool → Bool → JSVal → JSVal
  | vfun : JSVal → JSVal
deriving DecidableEq

/-- JavaScript loose equality with null: `x == null` holds exactly for
`null` and `undefined`. -/
def jsEqNull : JSVal → Bool
  | JSVal.vnull => true
  | JSVal.vundefined => true
  | _ => false

/-- The `typeof` operator (note `typeof null` is the string "object"). -/
def typeofStr : JSVal → String
  | JSVal.vnull => "object"
  | JSVal.vundefined => "undefined"
  | JSVal.vbool _ => "boolean"
  | JSVal.vnum _ => "number"
  | JSVal.vstr _ => "string"
  | JSVal.vobj _ _ _ => "object"
  | JSVal.vfun _ => "function"

/-- `typeof componentOrHandle === 'number'`. -/
def isNumber : JSVal → Bool
  | JSVal.vnum _ => true
  | _ => false

/-- JavaScript truthiness (the number model is `Int`, so the only falsy
number is 0; NaN is not modelled). -/
def truthy : JSVal → Bool
  | JSVal.vnull => false
  | JSVal.vundefined => false
  | JSVal.vbool b => b
  | JSVal.vnum n => decide (n ≠ 0)
  | JSVal.vstr s => decide (s ≠ "")
  | JSVal.vobj _ _ _ => true
  | JSVal.vfun _ => true

/-- Property read `component.render`: objects and functions carry a `render`
slot; on every other value the read yields `undefined`. -/
def getRender : JSVal → JSVal
  | JSVal.vobj _ _ r => r
  | JSVal.vfun r => r
  | _ => JSVal.vundefined

/-- `'_rootNodeID' in component`. -/
def hasRootNodeID : JSVal → Bool
  | JSVal.vobj h _ _ => h
  | _ => false

/-- `'_nativeTag' in component`. -/
def hasNativeTag : JSVal → Bool
  | JSVal.vobj _ h _ => h
  | _ => false

/-- The first `invariant` condition of the module:
`(typeof component === 'object' && ('_rootNodeID' in component || '_nativeTag' in component))
 || (component.render != null && typeof component.render === 'function')`. -/
def isComponentLike (component : JSVal) : Bool :=
  (typeofStr component = "object" && (hasRootNodeID component || hasNativeTag component)) ||
    (!jsEqNull (getRender component) && typeofStr (getRender component) = "function")

/-- Format string of the first `invariant` failure (argument substitution of
`typeof component` and `Object.keys(component)` for the two %s is elided:
the message is modelled by its template). -/
def msgNotComponent : String :=
  "findNodeHandle(...): Argument is not a component (type: %s, keys: %s)"

/-- Format string of the second `invariant` failure. -/
def msgUnmounted : String :=
  "findNodeHandle(...): Unable to find node handle for unmounted component."

/-- Observable completion of one call: a normal return, an `invariant` throw
carrying its message template, or the TypeError raised by invoking an
uninjected (undefined) strategy slot. -/
inductive Outcome where
  | ret : JSVal → Outcome
  | throw : String → Outcome
  | typeError : Outcome
deriving DecidableEq

/-- The current owner (`ReactCurrentOwner.current` when non-null).
`isFiber` records `typeof owner.tag === 'number'`; `loc` identifies the
mutable cell holding `_warnedAboutRefsInRender` (on `owner.stateNode` for a
fiber owner, on the owner instance itself for a stack owner — in both cases a
single boolean cell per owner). -/
structure Owner where
  isFiber : Bool
  loc : Nat
deriving DecidableEq

/-- The mutable environment a call runs in: the two module-level injected
strategy slots (`none` models the uninitialized `undefined`), the
`ReactInstanceMap.get` lookup, `ReactCurrentOwner.current`, and the
`_warnedAboutRefsInRender` cells addressed by `Owner.loc`. -/
structure FNHState where
  injectedFindNode : Option (JSVal → JSVal)
  injectedFindRootNodeID : Option (JSVal → JSVal)
  instGet : JSVal → JSVal
  currentOwner : Option Owner
  warnedFlags : Nat → Bool

/-- Observable events of one call, in chronological order: a development-mode
warning against the owner flag cell `loc`, a `ReactInstanceMap.get` lookup,
and the invocations of the two injected strategies. -/
inductive Event where
  | warn : Nat → Event
  | mapGet : JSVal → Event
  | callFindNode : JSVal → Event
  | callFindRootNodeID : JSVal → Event
deriving DecidableEq

/-- The `if (__DEV__)` block: when a current owner exists, read its
`_warnedAboutRefsInRender` flag, emit the render-phase warning exactly when
the flag is falsy (`warning(cond, ...)` warns on a falsy condition), and then
set the flag to `true` (the source writes the fiber or stack cell; both are
the owner's single flag cell `loc`). -/
def devCheck (dev : Bool) (s : FNHState) : FNHState × List Event :=
  if dev then
    match s.currentOwner with
    | none => (s, [])
    | some owner =>
      let warnedAboutRefsInRender := s.warnedFlags owner.loc
      ({ s with warnedFlags := fun l => if l = owner.loc then true else s.warnedFlags l },
        if warnedAboutRefsInRender then [] else [Event.warn owner.loc])
  else (s, [])

/-- `injectedFindNode(internalInstance)`: invoking the slot, which is a
TypeError when the slot was never injected. -/
def applyFindNode (s : FNHState) (internalInstance : JSVal) : Outcome :=
  match s.injectedFindNode with
  | none => Outcome.typeError
  | some findNode => Outcome.ret (findNode internalInstance)

/-- The `else` branch: `injectedFindRootNodeID(component)` (a TypeError when
uninjected); return the result when truthy, otherwise fall into the two
`invariant` checks. -/
def resolveByRootID (s : FNHState) (component : JSVal) : Outcome :=
  match s.injectedFindRootNodeID with
  | none => Outcome.typeError
  | some findRootNodeID =>
    let rootNodeID := findRootNodeID component
    if truthy rootNodeID then Outcome.ret rootNodeID
    else if isComponentLike component then Outcome.throw msgUnmounted
    else Outcome.throw msgNotComponent

/-- The body of `findNodeHandle` after the `__DEV__` block: null check,
number check, then `ReactInstanceMap.get` and the two lookup branches.
This part reads state but never writes it; the event list records the map
lookup and strategy invocations in order. -/
def dispatch (s : FNHState) (componentOrHandle : JSVal) : Outcome × List Event :=
  if jsEqNull componentOrHandle then (Outcome.ret JSVal.vnull, [])
  else if isNumber componentOrHandle then (Outcome.ret componentOrHandle, [])
  else
    let component := componentOrHandle
    let internalInstance := s.instGet component
    if truthy internalInstance then
      (applyFindNode s internalInstance,
        [Event.mapGet component, Event.callFindNode internalInstance])
    else
      (resolveByRootID s component,
        [Event.mapGet component, Event.callFindRootNodeID component])

/-- Result of one call: its outcome, the state after the call, and the
chronological event trace. -/
structure FNHResult where
  outcome : Outcome
  state : FNHState
  events : List Event

/-- `findNodeHandle(componentOrHandle)`. `dev` is the compile-time `__DEV__`
flag. The `__DEV__` block runs first (it is the only state write); the
dispatch body then runs against the updated state. -/
def findNodeHandle (dev : Bool) (s : FNHState) (componentOrHandle : JSVal) : FNHResult :=
  let d := devCheck dev s
  let p := dispatch d.1 componentOrHandle
  ⟨p.1, d.1, d.2 ++ p.2⟩

/-- `findNodeHandle.injection.injectFindNode(findNode)`. -/
def injectFindNode (s : FNHState) (findNode : JSVal → JSVal) : FNHState :=
  { s with injectedFindNode := some findNode }

/-- `findNodeHandle.injection.injectFindRootNodeID(findRootNodeID)`. -/
def injectFindRootNodeID (s : FNHState) (findRootNodeID : JSVal → JSVal) : FNHState :=
  { s with injectedFindRootNodeID := some findRootNodeID }

/-- Run a sequence of calls; each list element supplies the value of
`ReactCurrentOwner.current` at the time of the call (that global is set by
the surrounding renderer, outside this module) and the argument.  Returns the
final state and the concatenated event trace. -/
def runCalls (dev : Bool) : FNHState → List (Option Owner × JSVal) → FNHState × List Event
  | s, [] => (s, [])
  | s, c :: rest =>
    let r := findNodeHandle dev { s with currentOwner := c.1 } c.2
    let q := runCalls dev r.state rest
    (q.1, r.events ++ q.2)

/-- Recognizer for a warning against flag cell `loc`. -/
def isWarn (loc : Nat) : Event → Bool
  | Event.warn l => l = loc
  | _ => false

/-- Recognizer for a `ReactInstanceMap.get` lookup event. -/
def isMapGet : Event → Bool
  | Event.mapGet _ => true
  | _ => false

/-- Recognizer for an invocation of the injected `findNode` strategy. -/
def isCallFindNode : Event → Bool
  | Event.callFindNode _ => true
  | _ => false

/-- Recognizer for an invocation of the injected `findRootNodeID` strategy. -/
def isCallFindRootNodeID : Event → Bool
  | Event.callFindRootNodeID _ => true
  | _ => false

/-- Number of warnings against flag cell `loc` in a trace. -/
def countWarn (loc : Nat) (l : List Event) : Nat := (l.filter (isWarn loc)).length

/-- Number of `ReactInstanceMap.get` lookups in a trace. -/
def countMapGet (l : List Event) : Nat := (l.filter isMapGet).length

/-- Number of invocations of the injected `findNode` strategy in a trace. -/
def countFindNodeCalls (l : List Event) : Nat := (l.filter isCallFindNode).length

/-- Number of invocations of the injected `findRootNodeID` strategy in a
trace. -/
def countRootIDCalls (l : List Event) : Nat := (l.filter isCallFindRootNodeID).length

/-- Contribution of one owner flag to the warning count: 1 when still unset. -/
def warnTick (b : Bool) : Nat := if b then 1 else 0

/-- A concrete internal-instance object for concrete instantiations. -/
def sampleInstance : JSVal := JSVal.vobj false false JSVal.vnull

/-- A state whose instance map hits for every component. -/
def stateHit : FNHState :=
  { injectedFindNode := some (fun _ => JSVal.vnum 42)
    injectedFindRootNodeID := some (fun _ => JSVal.vnum 7)
    instGet := fun _ => sampleInstance
    currentOwner := none
    warnedFlags := fun _ => false }

/-- A state whose instance map misses and whose `findRootNodeID` strategy
returns a truthy root node ID. -/
def stateMiss : FNHState :=
  { injectedFindNode := some (fun _ => JSVal.vnum 42)
    injectedFindRootNodeID := some (fun _ => JSVal.vstr "root")
    instGet := fun _ => JSVal.vundefined
    currentOwner := none
    warnedFlags := fun _ => false }

/-- A state whose instance map misses and whose `findRootNodeID` strategy
returns a falsy value. -/
def stateDead : FNHState :=
  { injectedFindNode := some (fun _ => JSVal.vnum 42)
    injectedFindRootNodeID := some (fun _ => JSVal.vnum 0)
    instGet := fun _ => JSVal.vundefined
    currentOwner := none
    warnedFlags := fun _ => false }

/-- A state with no strategies injected and a hitting instance map. -/
def stateBare : FNHState :=
  { injectedFindNode := none
    injectedFindRootNodeID := none
    instGet := fun _ => sampleInstance
    currentOwner := none
    warnedFlags := fun _ => false }

/-- A state with no strategies injected and a missing instance map. -/
def stateBareMiss : FNHState :=
  { injectedFindNode := none
    injectedFindRootNodeID := none
    instGet := fun _ => JSVal.vundefined
    currentOwner := none
    warnedFlags := fun _ => false }

/-- A hitting state with a current owner whose flag cell is 0 and unset. -/
def stateOwner : FNHState :=
  { injectedFindNode := some (fun _ => JSVal.vnum 42)
    injectedFindRootNodeID := some (fun _ => JSVal.vnum 7)
    instGet := fun _ => sampleInstance
    currentOwner := some { isFiber := false, loc := 0 }
    warnedFlags := fun _ => false }

end FindNodeHandle

namespace FindNodeHandle

/-- The outcome of a call is the outcome of the dispatch body run in the
state left by the `__DEV__` block. -/
theorem findNodeHandle_outcome_def (dev : Bool) (s : FNHState) (v : JSVal) :
    (findNodeHandle dev s v).outcome = (dispatch (devCheck dev s).1 v).1 := rfl

/-- The state after a call is the state left by the `__DEV__` block. -/
theorem findNodeHandle_state_def (dev : Bool) (s : FNHState) (v : JSVal) :
    (findNodeHandle dev s v).state = (devCheck dev s).1 := rfl

/-- The trace of a call is the `__DEV__` events followed by the dispatch
events. -/
theorem findNodeHandle_events_def (dev : Bool) (s : FNHState) (v : JSVal) :
    (findNodeHandle dev s v).events
      = (devCheck dev s).2 ++ (dispatch (devCheck dev s).1 v).2 := rfl

/-- The `__DEV__` block never touches the `findNode` slot. -/
theorem devCheck_preserves_injectedFindNode (dev : Bool) (s : FNHState) :
    ((devCheck dev s).1).injectedFindNode = s.injectedFindNode := by
  cases dev with
  | false => rfl
  | true => cases hco : s.currentOwner <;> simp [devCheck, hco]

/-- The `__DEV__` block never touches the `findRootNodeID` slot. -/
theorem devCheck_preserves_injectedFindRootNodeID (dev : Bool) (s : FNHState) :
    ((devCheck dev s).1).injectedFindRootNodeID = s.injectedFindRootNodeID := by
  cases dev with
  | false => rfl
  | true => cases hco : s.currentOwner <;> simp [devCheck, hco]

/-- The `__DEV__` block never touches the instance map. -/
theorem devCheck_preserves_instGet (dev : Bool) (s : FNHState) :
    ((devCheck dev s).1).instGet = s.instGet := by
  cases dev with
  | false => rfl
  | true => cases hco : s.currentOwner <;> simp [devCheck, hco]

/-- On a non-null, non-numeric argument the dispatch body reduces to the two
lookup branches, keyed on the truthiness of the `ReactInstanceMap.get`
result. -/
theorem dispatch_of_component (s : FNHState) (v : JSVal)
    (h0 : jsEqNull v = false) (h1 : isNumber v = false) :
    dispatch s v =
      if truthy (s.instGet v) then
        (applyFindNode s (s.instGet v),
          [Event.mapGet v, Event.callFindNode (s.instGet v)])
      else
        (resolveByRootID s v,
          [Event.mapGet v, Event.callFindRootNodeID v]) := by
  simp [dispatch, h0, h1]

/-- Hit branch: a truthy instance-map result is passed to the injected
`findNode`, whose value is returned. -/
theorem outcome_findNode_branch (dev : Bool) (s : FNHState) (v : JSVal)
    (findNode : JSVal → JSVal)
    (h0 : jsEqNull v = false) (h1 : isNumber v = false)
    (h2 : truthy (s.instGet v) = true)
    (hf : s.injectedFindNode = some findNode) :
    (findNodeHandle dev s v).outcome = Outcome.ret (findNode (s.instGet v)) := by
  have hIG := devCheck_preserves_instGet dev s
  have hFN := devCheck_preserves_injectedFindNode dev s
  rw [findNodeHandle_outcome_def, dispatch_of_component _ _ h0 h1, hIG]
  simp [h2, applyFindNode, hFN, hf]

/-- Hit branch with an uninjected `findNode` slot: invoking `undefined` is a
TypeError. -/
theorem outcome_findNode_typeError (dev : Bool) (s : FNHState) (v : JSVal)
    (h0 : jsEqNull v = false) (h1 : isNumber v = false)
    (h2 : truthy (s.instGet v) = true)
    (hf : s.injectedFindNode = none) :
    (findNodeHandle dev s v).outcome = Outcome.typeError := by
  have hIG := devCheck_preserves_instGet dev s
  have hFN := devCheck_preserves_injectedFindNode dev s
  rw [findNodeHandle_outcome_def, dispatch_of_component _ _ h0 h1, hIG]
  simp [h2, applyFindNode, hFN, hf]

/-- Miss branch with a truthy `findRootNodeID` result: that result is
returned. -/
theorem outcome_rootID_branch (dev : Bool) (s : FNHState) (v : JSVal)
    (findRootNodeID : JSVal → JSVal)
    (h0 : jsEqNull v = false) (h1 : isNumber v = false)
    (h2 : truthy (s.instGet v) = false)
    (hg : s.injectedFindRootNodeID = some findRootNodeID)
    (h3 : truthy (findRootNodeID v) = true) :
    (findNodeHandle dev s v).outcome = Outcome.ret (findRootNodeID v) := by
  have hIG := devCheck_preserves_instGet dev s
  have hFR := devCheck_preserves_injectedFindRootNodeID dev s
  rw [findNodeHandle_outcome_def, dispatch_of_component _ _ h0 h1, hIG]
  simp [h2, resolveByRootID, hFR, hg, h3]

/-- Miss branch with an uninjected `findRootNodeID` slot: TypeError. -/
theorem outcome_rootID_typeError (dev : Bool) (s : FNHState) (v : JSVal)
    (h0 : jsEqNull v = false) (h1 : isNumber v = false)
    (h2 : truthy (s.instGet v) = false)
    (hg : s.injectedFindRootNodeID = none) :
    (findNodeHandle dev s v).outcome = Outcome.typeError := by
  have hIG := devCheck_preserves_instGet dev s
  have hFR := devCheck_preserves_injectedFindRootNodeID dev s
  rw [findNodeHandle_outcome_def, dispatch_of_component _ _ h0 h1, hIG]
  simp [h2, resolveByRootID, hFR, hg]

/-- Miss branch with a falsy `findRootNodeID` result: one of the two
`invariant` throws, selected by the component-shape test. -/
theorem outcome_invariant_throw (dev : Bool) (s : FNHState) (v : JSVal)
    (findRootNodeID : JSVal → JSVal)
    (h0 : jsEqNull v = false) (h1 : isNumber v = false)
    (h2 : truthy (s.instGet v) = false)
    (hg : s.injectedFindRootNodeID = some findRootNodeID)
    (h3 : truthy (findRootNodeID v) = false) :
    (findNodeHandle dev s v).outcome =
      (if isComponentLike v then Outcome.throw msgUnmounted
        else Outcome.throw msgNotComponent) := by
  have hIG := devCheck_preserves_instGet dev s
  have hFR := devCheck_preserves_injectedFindRootNodeID dev s
  rw [findNodeHandle_outcome_def, dispatch_of_component _ _ h0 h1, hIG]
  simp [h2, resolveByRootID, hFR, hg, h3]

/-- Trace of the hit branch. -/
theorem events_findNode_branch (dev : Bool) (s : FNHState) (v : JSVal)
    (h0 : jsEqNull v = false) (h1 : isNumber v = false)
    (h2 : truthy (s.instGet v) = true) :
    (findNodeHandle dev s v).events
      = (devCheck dev s).2 ++ [Event.mapGet v, Event.callFindNode (s.instGet v)] := by
  have hIG := devCheck_preserves_instGet dev s
  rw [findNodeHandle_events_def, dispatch_of_component _ _ h0 h1, hIG]
  simp [h2]

/-- Trace of the miss branch. -/
theorem events_rootID_branch (dev : Bool) (s : FNHState) (v : JSVal)
    (h0 : jsEqNull v = false) (h1 : isNumber v = false)
    (h2 : truthy (s.instGet v) = false) :
    (findNodeHandle dev s v).events
      = (devCheck dev s).2 ++ [Event.mapGet v, Event.callFindRootNodeID v] := by
  have hIG := devCheck_preserves_instGet dev s
  rw [findNodeHandle_events_def, dispatch_of_component _ _ h0 h1, hIG]
  simp [h2]

/-- The `__DEV__` block emits at most a single warning event and nothing
else. -/
theorem devCheck_events_shape (dev : Bool) (s : FNHState) :
    (devCheck dev s).2 = [] ∨ ∃ loc, (devCheck dev s).2 = [Event.warn loc] := by
  cases dev with
  | false => exact Or.inl rfl
  | true =>
    cases hco : s.currentOwner with
    | none => exact Or.inl (by simp [devCheck, hco])
    | some o =>
      by_cases hw : s.warnedFlags o.loc = true
      · exact Or.inl (by simp [devCheck, hco, hw])
      · have hw' : s.warnedFlags o.loc = false := by simpa using hw
        exact Or.inr ⟨o.loc, by simp [devCheck, hco, hw']⟩

end FindNodeHandle

namespace FindNodeHandle

/-- Counting distributes over trace concatenation. -/
theorem countWarn_append (loc : Nat) (a b : List Event) :
    countWarn loc (a ++ b) = countWarn loc a + countWarn loc b := by
  simp [countWarn, List.filter_append]

/-- The dispatch body never warns. -/
theorem countWarn_dispatch (s : FNHState) (v : JSVal) (loc : Nat) :
    countWarn loc (dispatch s v).2 = 0 := by
  by_cases h0 : jsEqNull v = true
  · simp [dispatch, h0, countWarn]
  · have h0' : jsEqNull v = false := by simpa using h0
    by_cases h1 : isNumber v = true
    · simp [dispatch, h0', h1, countWarn]
    · have h1' : isNumber v = false := by simpa using h1
      rw [dispatch_of_component _ _ h0' h1']
      by_cases h2 : truthy (s.instGet v) = true <;>
        simp [h2, countWarn, isWarn]

/-- All warnings of a call come from the `__DEV__` block. -/
theorem countWarn_findNodeHandle (dev : Bool) (s : FNHState) (v : JSVal) (loc : Nat) :
    countWarn loc (findNodeHandle dev s v).events = countWarn loc (devCheck dev s).2 := by
  rw [findNodeHandle_events_def, countWarn_append, countWarn_dispatch]
  exact Nat.add_zero _

/-- Warning count of a production-mode `__DEV__` block: zero. -/
theorem countWarn_devCheck_false (s : FNHState) (loc : Nat) :
    countWarn loc (devCheck false s).2 = 0 := rfl

/-- Warning count with no current owner: zero. -/
theorem countWarn_devCheck_none (s : FNHState) (loc : Nat)
    (h : s.currentOwner = none) :
    countWarn loc (devCheck true s).2 = 0 := by
  simp [devCheck, h, countWarn]

/-- Warning count with a current owner: one against the owner's cell when
its flag is unset, zero otherwise. -/
theorem countWarn_devCheck_some (s : FNHState) (o : Owner) (loc : Nat)
    (h : s.currentOwner = some o) :
    countWarn loc (devCheck true s).2
      = if s.warnedFlags o.loc then 0 else (if o.loc = loc then 1 else 0) := by
  by_cases hw : s.warnedFlags o.loc = true
  · simp [devCheck, h, hw, countWarn]
  · simp only [Bool.not_eq_true] at hw
    by_cases hol : o.loc = loc
    · subst hol
      simp [devCheck, h, hw, countWarn, isWarn]
    · simp [devCheck, h, hw, countWarn, isWarn, hol]

/-- In development mode with a current owner, the block sets the owner's
flag. -/
theorem devCheck_state_flags_some (s : FNHState) (o : Owner)
    (h : s.currentOwner = some o) :
    (devCheck true s).1.warnedFlags
      = fun l => if l = o.loc then true else s.warnedFlags l := by
  simp [devCheck, h]

/-- One call consumes the unset-flag budget of a cell: the warnings it emits
against a cell, plus the cell's prior tick, are bounded by its posterior
tick. -/
theorem warn_step_bound (dev : Bool) (s : FNHState) (v : JSVal) (loc : Nat) :
    countWarn loc (findNodeHandle dev s v).events + warnTick (s.warnedFlags loc)
      ≤ warnTick ((findNodeHandle dev s v).state.warnedFlags loc) := by
  rw [countWarn_findNodeHandle, findNodeHandle_state_def]
  cases dev with
  | false => simp [devCheck, countWarn, warnTick]
  | true =>
    cases hco : s.currentOwner with
    | none => simp [devCheck, hco, countWarn, warnTick]
    | some o =>
      rw [countWarn_devCheck_some s o loc hco, devCheck_state_flags_some s o hco]
      by_cases hl : loc = o.loc
      · subst hl
        by_cases hw : s.warnedFlags o.loc = true
        · simp [hw, warnTick]
        · simp only [Bool.not_eq_true] at hw
          simp [hw, warnTick]
      · have hl2 : ¬(o.loc = loc) := fun hh => hl hh.symm
        simp [hl, hl2, warnTick]

/-- Budget bound over a whole call sequence. -/
theorem runCalls_warn_bound (dev : Bool) (loc : Nat)
    (calls : List (Option Owner × JSVal)) :
    ∀ s : FNHState,
      countWarn loc (runCalls dev s calls).2 + warnTick (s.warnedFlags loc)
        ≤ warnTick ((runCalls dev s calls).1.warnedFlags loc) := by
  induction calls with
  | nil => intro s; simp [runCalls, countWarn]
  | cons c rest ih =>
    intro s
    have h1 := warn_step_bound dev { s with currentOwner := c.1 } c.2 loc
    have h2 := ih (findNodeHandle dev { s with currentOwner := c.1 } c.2).state
    have hsw : ({ s with currentOwner := c.1 } : FNHState).warnedFlags loc
        = s.warnedFlags loc := rfl
    rw [hsw] at h1
    simp only [runCalls, countWarn_append]
    omega

/-- A tick is at most one. -/
theorem warnTick_le_one (b : Bool) : warnTick b ≤ 1 := by
  cases b <;> simp [warnTick]

end FindNodeHandle

namespace FindNodeHandle

/-- Exhaustive case analysis of the dispatch body's outcome. -/
theorem dispatch_cases (s : FNHState) (v : JSVal) :
    (jsEqNull v = true ∧ (dispatch s v).1 = Outcome.ret JSVal.vnull) ∨
    (isNumber v = true ∧ (dispatch s v).1 = Outcome.ret v) ∨
    (∃ findNode, s.injectedFindNode = some findNode ∧
      (dispatch s v).1 = Outcome.ret (findNode (s.instGet v))) ∨
    (∃ findRootNodeID, s.injectedFindRootNodeID = some findRootNodeID ∧
      (dispatch s v).1 = Outcome.ret (findRootNodeID v)) ∨
    (∃ m, (dispatch s v).1 = Outcome.throw m) ∨
    (dispatch s v).1 = Outcome.typeError := by
  by_cases h0 : jsEqNull v = true
  · exact Or.inl ⟨h0, by simp [dispatch, h0]⟩
  · have h0' : jsEqNull v = false := by simpa using h0
    by_cases h1 : isNumber v = true
    · exact Or.inr (Or.inl ⟨h1, by simp [dispatch, h0', h1]⟩)
    · have h1' : isNumber v = false := by simpa using h1
      rw [dispatch_of_component _ _ h0' h1']
      by_cases h2 : truthy (s.instGet v) = true
      · cases hf : s.injectedFindNode with
        | none =>
          refine Or.inr (Or.inr (Or.inr (Or.inr (Or.inr ?_))))
          simp [h2, applyFindNode, hf]
        | some f =>
          refine Or.inr (Or.inr (Or.inl ⟨f, rfl, ?_⟩))
          simp [h2, applyFindNode, hf]
      · have h2' : truthy (s.instGet v) = false := by simpa using h2
        cases hg : s.injectedFindRootNodeID with
        | none =>
          refine Or.inr (Or.inr (Or.inr (Or.inr (Or.inr ?_))))
          simp [h2', resolveByRootID, hg]
        | some g =>
          by_cases h3 : truthy (g v) = true
          · refine Or.inr (Or.inr (Or.inr (Or.inl ⟨g, rfl, ?_⟩)))
            simp [h2', resolveByRootID, hg, h3]
          · have h3' : truthy (g v) = false := by simpa using h3
            refine Or.inr (Or.inr (Or.inr (Or.inr (Or.inl ?_))))
            by_cases hc : isComponentLike v = true
            · exact ⟨msgUnmounted, by simp [h2', resolveByRootID, hg, h3', hc]⟩
            · have hc' : isComponentLike v = false := by simpa using hc
              exact ⟨msgNotComponent, by simp [h2', resolveByRootID, hg, h3', hc']⟩

/-- Map-lookup counting distributes over concatenation. -/
theorem countMapGet_append (a b : List Event) :
    countMapGet (a ++ b) = countMapGet a + countMapGet b := by
  simp [countMapGet, List.filter_append]

/-- `findNode`-call counting distributes over concatenation. -/
theorem countFindNodeCalls_append (a b : List Event) :
    countFindNodeCalls (a ++ b) = countFindNodeCalls a + countFindNodeCalls b := by
  simp [countFindNodeCalls, List.filter_append]

/-- `findRootNodeID`-call counting distributes over concatenation. -/
theorem countRootIDCalls_append (a b : List Event) :
    countRootIDCalls (a ++ b) = countRootIDCalls a + countRootIDCalls b := by
  simp [countRootIDCalls, List.filter_append]

/-- The `__DEV__` block performs no instance-map lookup. -/
theorem countMapGet_devCheck (dev : Bool) (s : FNHState) :
    countMapGet (devCheck dev s).2 = 0 := by
  rcases devCheck_events_shape dev s with h | ⟨loc, h⟩ <;> rw [h] <;> rfl

/-- The `__DEV__` block invokes no `findNode` strategy. -/
theorem countFindNodeCalls_devCheck (dev : Bool) (s : FNHState) :
    countFindNodeCalls (devCheck dev s).2 = 0 := by
  rcases devCheck_events_shape dev s with h | ⟨loc, h⟩ <;> rw [h] <;> rfl

/-- The `__DEV__` block invokes no `findRootNodeID` strategy. -/
theorem countRootIDCalls_devCheck (dev : Bool) (s : FNHState) :
    countRootIDCalls (devCheck dev s).2 = 0 := by
  rcases devCheck_events_shape dev s with h | ⟨loc, h⟩ <;> rw [h] <;> rfl

end FindNodeHandle

namespace FindNodeHandle

/-- C1: for every input, a call to findNodeHandle has exactly one of four
observable outcomes: it returns null (when the input is null or undefined),
it returns the input itself (when the input is a number), it returns the
value produced by an injected lookup strategy (findNode on the instance-map
result, or findRootNodeID on the input), or it throws (an invariant failure
or the TypeError from invoking an uninjected slot); no other outcome is
possible. -/
theorem c1_four_outcomes (dev : Bool) (s : FNHState) (v : JSVal) :
    (jsEqNull v = true ∧ (findNodeHandle dev s v).outcome = Outcome.ret JSVal.vnull) ∨
    (isNumber v = true ∧ (findNodeHandle dev s v).outcome = Outcome.ret v) ∨
    (∃ findNode, s.injectedFindNode = some findNode ∧
      (findNodeHandle dev s v).outcome = Outcome.ret (findNode (s.instGet v))) ∨
    (∃ findRootNodeID, s.injectedFindRootNodeID = some findRootNodeID ∧
      (findNodeHandle dev s v).outcome = Outcome.ret (findRootNodeID v)) ∨
    (∃ m, (findNodeHandle dev s v).outcome = Outcome.throw m) ∨
    (findNodeHandle dev s v).outcome = Outcome.typeError := by
  have h := dispatch_cases (devCheck dev s).1 v
  rw [devCheck_preserves_injectedFindNode, devCheck_preserves_injectedFindRootNodeID,
    devCheck_preserves_instGet] at h
  exact h

/-- C2: for every non-null, non-numeric input whose instance-map lookup
yields a truthy internal instance, findNodeHandle returns exactly the result
of applying the injected findNode strategy to that internal instance. -/
theorem c2_findNode_delegation (dev : Bool) (s : FNHState) (v : JSVal)
    (findNode : JSVal → JSVal)
    (h0 : jsEqNull v = false) (h1 : isNumber v = false)
    (h2 : truthy (s.instGet v) = true)
    (hf : s.injectedFindNode = some findNode) :
    (findNodeHandle dev s v).outcome = Outcome.ret (findNode (s.instGet v)) :=
  outcome_findNode_branch dev s v findNode h0 h1 h2 hf

/-- C2 witness: a concrete component resolved through the injected findNode. -/
theorem c2_witness :
    (findNodeHandle false stateHit (JSVal.vstr "c")).outcome
      = Outcome.ret (JSVal.vnum 42) :=
  c2_findNode_delegation false stateHit (JSVal.vstr "c")
    (fun _ => JSVal.vnum 42) rfl rfl rfl rfl

/-- C3: for every non-null, non-numeric input with no internal instance and
a falsy findRootNodeID result, findNodeHandle throws: with the
argument-is-not-a-component message when the input neither is an object
bearing a _rootNodeID or _nativeTag property nor has a render function, and
with the unmounted-component message otherwise. -/
theorem c3_unresolvable_throw (dev : Bool) (s : FNHState) (v : JSVal)
    (findRootNodeID : JSVal → JSVal)
    (h0 : jsEqNull v = false) (h1 : isNumber v = false)
    (h2 : truthy (s.instGet v) = false)
    (hg : s.injectedFindRootNodeID = some findRootNodeID)
    (h3 : truthy (findRootNodeID v) = false) :
    (∃ m, (findNodeHandle dev s v).outcome = Outcome.throw m) ∧
    (isComponentLike v = false →
      (findNodeHandle dev s v).outcome = Outcome.throw msgNotComponent) ∧
    (isComponentLike v = true →
      (findNodeHandle dev s v).outcome = Outcome.throw msgUnmounted) := by
  have key := outcome_invariant_throw dev s v findRootNodeID h0 h1 h2 hg h3
  by_cases hc : isComponentLike v = true
  · refine ⟨⟨msgUnmounted, ?_⟩, ?_, ?_⟩
    · rw [key]; simp [hc]
    · intro hcc; rw [hcc] at hc; exact absurd hc (by simp)
    · intro _; rw [key]; simp [hc]
  · have hc' : isComponentLike v = false := by simpa using hc
    refine ⟨⟨msgNotComponent, ?_⟩, ?_, ?_⟩
    · rw [key]; simp [hc']
    · intro _; rw [key]; simp [hc']
    · intro hcc; rw [hcc] at hc'; exact absurd hc' (by simp)

/-- C3 witness: a non-component string argument with a failing root lookup
produces the argument-is-not-a-component invariant failure. -/
theorem c3_witness :
    (findNodeHandle false stateDead (JSVal.vstr "c")).outcome
      = Outcome.throw msgNotComponent := by
  have h := c3_unresolvable_throw false stateDead (JSVal.vstr "c")
    (fun _ => JSVal.vnum 0) rfl rfl rfl rfl (by decide)
  exact h.2.1 (by decide)

/-- C4: for every non-null, non-numeric input the instance-map lookup comes
first in the trace; findRootNodeID is applied only when the map result is
falsy (and its truthy result is then returned), and is never invoked when
the map lookup succeeds. -/
theorem c4_lookup_order (dev : Bool) (s : FNHState) (v : JSVal)
    (h0 : jsEqNull v = false) (h1 : isNumber v = false) :
    (truthy (s.instGet v) = true →
      (findNodeHandle dev s v).events
        = (devCheck dev s).2 ++ [Event.mapGet v, Event.callFindNode (s.instGet v)] ∧
      countRootIDCalls (findNodeHandle dev s v).events = 0) ∧
    (truthy (s.instGet v) = false →
      (findNodeHandle dev s v).events
        = (devCheck dev s).2 ++ [Event.mapGet v, Event.callFindRootNodeID v] ∧
      ∀ findRootNodeID, s.injectedFindRootNodeID = some findRootNodeID →
        truthy (findRootNodeID v) = true →
        (findNodeHandle dev s v).outcome = Outcome.ret (findRootNodeID v)) := by
  constructor
  · intro h2
    have he := events_findNode_branch dev s v h0 h1 h2
    refine ⟨he, ?_⟩
    rw [he, countRootIDCalls_append, countRootIDCalls_devCheck]
    rfl
  · intro h2
    refine ⟨events_rootID_branch dev s v h0 h1 h2, ?_⟩
    intro g hg h3
    exact outcome_rootID_branch dev s v g h0 h1 h2 hg h3

/-- C4 witness: with a hitting map the trace contains no findRootNodeID
call, and with a missing map a truthy root node ID is returned. -/
theorem c4_witness :
    countRootIDCalls (findNodeHandle false stateHit (JSVal.vstr "c")).events = 0 ∧
    (findNodeHandle false stateMiss (JSVal.vstr "c")).outcome
      = Outcome.ret (JSVal.vstr "root") := by
  constructor
  · exact ((c4_lookup_order false stateHit (JSVal.vstr "c") rfl rfl).1 rfl).2
  · exact ((c4_lookup_order false stateMiss (JSVal.vstr "c") rfl rfl).2 rfl).2
      (fun _ => JSVal.vstr "root") rfl (by decide)

/-- C5: for every numeric input n, findNodeHandle returns n itself, and the
function is idempotent on that numeric result. -/
theorem c5_identity_on_numbers (dev : Bool) (s : FNHState) (n : Int) :
    (findNodeHandle dev s (JSVal.vnum n)).outcome = Outcome.ret (JSVal.vnum n) ∧
    (findNodeHandle dev (findNodeHandle dev s (JSVal.vnum n)).state
        (JSVal.vnum n)).outcome = Outcome.ret (JSVal.vnum n) :=
  ⟨rfl, rfl⟩

/-- C6: for the inputs null and undefined, findNodeHandle returns null
without consulting the instance map, without invoking either injected
strategy, and without throwing. -/
theorem c6_null_returns_null (dev : Bool) (s : FNHState) (v : JSVal)
    (h : jsEqNull v = true) :
    (findNodeHandle dev s v).outcome = Outcome.ret JSVal.vnull ∧
    countMapGet (findNodeHandle dev s v).events = 0 ∧
    countFindNodeCalls (findNodeHandle dev s v).events = 0 ∧
    countRootIDCalls (findNodeHandle dev s v).events = 0 := by
  have hd1 : (dispatch (devCheck dev s).1 v).1 = Outcome.ret JSVal.vnull := by
    simp [dispatch, h]
  have hd2 : (dispatch (devCheck dev s).1 v).2 = ([] : List Event) := by
    simp [dispatch, h]
  refine ⟨?_, ?_, ?_, ?_⟩
  · rw [findNodeHandle_outcome_def, hd1]
  · rw [findNodeHandle_events_def, hd2, List.append_nil]
    exact countMapGet_devCheck dev s
  · rw [findNodeHandle_events_def, hd2, List.append_nil]
    exact countFindNodeCalls_devCheck dev s
  · rw [findNodeHandle_events_def, hd2, List.append_nil]
    exact countRootIDCalls_devCheck dev s

/-- C6 witness: the null input at a concrete state. -/
theorem c6_witness :
    (findNodeHandle false stateHit JSVal.vnull).outcome = Outcome.ret JSVal.vnull ∧
    countMapGet (findNodeHandle false stateHit JSVal.vnull).events = 0 ∧
    countFindNodeCalls (findNodeHandle false stateHit JSVal.vnull).events = 0 ∧
    countRootIDCalls (findNodeHandle false stateHit JSVal.vnull).events = 0 :=
  c6_null_returns_null false stateHit JSVal.vnull rfl

/-- C7: in development mode with a non-null current owner, the render-phase
warning is issued exactly when the owner's _warnedAboutRefsInRender flag is
unset, and the flag is set afterwards; in production mode, or with no
current owner, no warning is issued; across any sequence of calls a given
owner flag cell is warned against at most once. -/
theorem c7_warned_once :
    (∀ (s : FNHState) (v : JSVal) (o : Owner), s.currentOwner = some o →
      countWarn o.loc (findNodeHandle true s v).events
          = (if s.warnedFlags o.loc then 0 else 1) ∧
      (findNodeHandle true s v).state.warnedFlags o.loc = true) ∧
    (∀ (s : FNHState) (v : JSVal) (loc : Nat),
      countWarn loc (findNodeHandle false s v).events = 0) ∧
    (∀ (s : FNHState) (v : JSVal) (loc : Nat), s.currentOwner = none →
      countWarn loc (findNodeHandle true s v).events = 0) ∧
    (∀ (dev : Bool) (s : FNHState) (calls : List (Option Owner × JSVal)) (loc : Nat),
      countWarn loc (runCalls dev s calls).2 ≤ 1) := by
  refine ⟨?_, ?_, ?_, ?_⟩
  · intro s v o h
    constructor
    · rw [countWarn_findNodeHandle, countWarn_devCheck_some s o o.loc h]
      simp
    · rw [findNodeHandle_state_def, devCheck_state_flags_some s o h]
      simp
  · intro s v loc
    rw [countWarn_findNodeHandle]
    rfl
  · intro s v loc h
    rw [countWarn_findNodeHandle]
    exact countWarn_devCheck_none s loc h
  · intro dev s calls loc
    have h := runCalls_warn_bound dev loc calls s
    have h2 := warnTick_le_one ((runCalls dev s calls).1.warnedFlags loc)
    omega

/-- C7 witness: a development-mode call under an unwarned owner warns once
and sets the flag. -/
theorem c7_witness :
    countWarn 0 (findNodeHandle true stateOwner (JSVal.vnum 5)).events = 1 ∧
    (findNodeHandle true stateOwner (JSVal.vnum 5)).state.warnedFlags 0 = true := by
  have h := c7_warned_once.1 stateOwner (JSVal.vnum 5) { isFiber := false, loc := 0 } rfl
  have h1 : countWarn 0 (findNodeHandle true stateOwner (JSVal.vnum 5)).events
      = (if stateOwner.warnedFlags 0 then 0 else 1) := h.1
  have h2 : (findNodeHandle true stateOwner (JSVal.vnum 5)).state.warnedFlags 0 = true := h.2
  refine ⟨?_, h2⟩
  rw [h1]
  rfl

/-- C8: injectFindNode replaces only the findNode slot, injectFindRootNodeID
replaces only its own slot, later injections override earlier ones, and
subsequent findNodeHandle calls use the most recently injected strategies. -/
theorem c8_injection_slots (s : FNHState) (f g : JSVal → JSVal) :
    ((injectFindNode s f).injectedFindNode = some f ∧
      (injectFindNode s f).injectedFindRootNodeID = s.injectedFindRootNodeID ∧
      (injectFindNode s f).instGet = s.instGet ∧
      (injectFindNode s f).currentOwner = s.currentOwner ∧
      (injectFindNode s f).warnedFlags = s.warnedFlags) ∧
    ((injectFindRootNodeID s g).injectedFindRootNodeID = some g ∧
      (injectFindRootNodeID s g).injectedFindNode = s.injectedFindNode ∧
      (injectFindRootNodeID s g).instGet = s.instGet ∧
      (injectFindRootNodeID s g).currentOwner = s.currentOwner ∧
      (injectFindRootNodeID s g).warnedFlags = s.warnedFlags) ∧
    (∀ f2 : JSVal → JSVal,
      (injectFindNode (injectFindNode s f) f2).injectedFindNode = some f2) ∧
    (∀ g2 : JSVal → JSVal,
      (injectFindRootNodeID (injectFindRootNodeID s g) g2).injectedFindRootNodeID
        = some g2) ∧
    (∀ (dev : Bool) (v : JSVal),
      jsEqNull v = false → isNumber v = false → truthy (s.instGet v) = true →
      (findNodeHandle dev (injectFindNode s f) v).outcome
        = Outcome.ret (f (s.instGet v))) ∧
    (∀ (dev : Bool) (v : JSVal),
      jsEqNull v = false → isNumber v = false → truthy (s.instGet v) = false →
      truthy (g v) = true →
      (findNodeHandle dev (injectFindRootNodeID s g) v).outcome
        = Outcome.ret (g v)) := by
  refine ⟨⟨rfl, rfl, rfl, rfl, rfl⟩, ⟨rfl, rfl, rfl, rfl, rfl⟩,
    fun f2 => rfl, fun g2 => rfl, ?_, ?_⟩
  · intro dev v h0 h1 h2
    exact outcome_findNode_branch dev (injectFindNode s f) v f h0 h1 h2 rfl
  · intro dev v h0 h1 h2 h3
    exact outcome_rootID_branch dev (injectFindRootNodeID s g) v g h0 h1 h2 rfl h3

/-- C8 witness: freshly injected strategies are the ones a later call uses. -/
theorem c8_witness :
    (findNodeHandle false (injectFindNode stateHit (fun _ => JSVal.vnum 99))
        (JSVal.vstr "c")).outcome = Outcome.ret (JSVal.vnum 99) ∧
    (findNodeHandle false (injectFindRootNodeID stateMiss (fun _ => JSVal.vnum 88))
        (JSVal.vstr "c")).outcome = Outcome.ret (JSVal.vnum 88) := by
  constructor
  · exact (c8_injection_slots stateHit (fun _ => JSVal.vnum 99)
      (fun _ => JSVal.vnum 88)).2.2.2.2.1 false (JSVal.vstr "c") rfl rfl rfl
  · exact (c8_injection_slots stateMiss (fun _ => JSVal.vnum 99)
      (fun _ => JSVal.vnum 88)).2.2.2.2.2 false (JSVal.vstr "c") rfl rfl rfl (by decide)

/-- C9: in production mode a call mutates no state: the strategy slots, the
instance map, the current owner and every owner flag are untouched (the
state after the call is the state before), and no warning is issued. -/
theorem c9_production_state_pure (s : FNHState) (v : JSVal) :
    (findNodeHandle false s v).state = s ∧
    (∀ loc : Nat, countWarn loc (findNodeHandle false s v).events = 0) := by
  refine ⟨rfl, fun loc => ?_⟩
  rw [countWarn_findNodeHandle]
  rfl

/-- C10: for every non-null, non-numeric input, successful resolution
requires prior injection: with an uninjected findNode slot a truthy
instance-map result leads to a TypeError (invoking undefined), and with an
uninjected findRootNodeID slot a falsy map result likewise, rather than a
return or the module's own invariant failure. -/
theorem c10_uninjected_typeError (dev : Bool) (s : FNHState) (v : JSVal)
    (h0 : jsEqNull v = false) (h1 : isNumber v = false) :
    (truthy (s.instGet v) = true → s.injectedFindNode = none →
      (findNodeHandle dev s v).outcome = Outcome.typeError) ∧
    (truthy (s.instGet v) = false → s.injectedFindRootNodeID = none →
      (findNodeHandle dev s v).outcome = Outcome.typeError) :=
  ⟨fun h2 hf => outcome_findNode_typeError dev s v h0 h1 h2 hf,
   fun h2 hg => outcome_rootID_typeError dev s v h0 h1 h2 hg⟩

/-- C10 witness: both uninjected branches TypeError on concrete states. -/
theorem c10_witness :
    (findNodeHandle false stateBare (JSVal.vstr "c")).outcome = Outcome.typeError ∧
    (findNodeHandle false stateBareMiss (JSVal.vstr "c")).outcome = Outcome.typeError := by
  constructor
  · exact (c10_uninjected_typeError false stateBare (JSVal.vstr "c") rfl rfl).1 rfl rfl
  · exact (c10_uninjected_typeError false stateBareMiss (JSVal.vstr "c") rfl rfl).2 rfl rfl

end FindNodeHandle
